import Mathlib

/-!
Verification of the MobileWorld Environment Fleet Orchestrator
(`src/mobile_world/core/subcommands/env.py` and the data model in
`src/mobile_world/runtime/utils/models.py`).

The Python code is shallowly embedded as pure Lean functions.  External
collaborators (the Docker runtime, the filesystem, the instance health
endpoint) are modelled as an oracle record (`LaunchWorld`, `DestroyWorld`,
`RestartWorld`) whose fields give, point-wise, the answers those
collaborators would return; the embedded functions additionally produce

  * a list of `Event`s  — the side-effecting calls issued, in order
    (port scans, runtime launch/remove/exec calls, sleeps, readiness waits);
  * a list of `Msg`s    — the console panels/messages, abstracted to their
    identity (rendering is outside the model);
  * a result            — `Except ExitReason …` models `sys.exit(1)`.

Time is modelled in whole seconds: the readiness poll
`wait_for_container_ready(port, timeout=1, poll_interval=1)` performed once
per iteration of the `while time.time() - start_time < timeout` loop in
`_wait_for_container_ready_with_progress` costs one second when the probe
fails and returns immediately when it succeeds, so the loop starting at
time `now` performs exactly `startTime + timeout - now` failing probes
before giving up.
-/

namespace MobileWorld

/-- Embeds `ContainerConfig` from `runtime/utils/models.py` (paths abstracted to
strings at the interface boundary). -/
structure ContainerConfig where
  name : String
  backend_port : Nat
  viewer_port : Nat
  vnc_port : Nat
  adb_port : Nat
  image : String
  dev_mode : Bool
  enable_vnc : Bool
  env_file_path : Option String
  dev_src_path : Option String
deriving DecidableEq, Repr

/-- One element of the `launched` list built in `_launch_containers`
(lines 568–577): the dict `{name, backend_port, viewer_port, vnc_port,
adb_port, ready}`. -/
structure LaunchedEntry where
  name : String
  backend_port : Nat
  viewer_port : Nat
  vnc_port : Nat
  adb_port : Nat
  ready : Bool
deriving DecidableEq, Repr

/-- Side-effecting calls issued by the orchestrator, in program order. -/
inductive Event where
  | findPorts
  | queryNextIndex
  | runtimeLaunch (name : String)
  | sleepBetween (secs : Nat)
  | waitReady (name : String) (port : Nat)
  | runtimeRemove (name : String)
  | killServer (name : String)
  | execReplace (name : String)
  | restartServerCall (name : String)
  | listContainersQuery
  | resolveNameQuery (name : String)
deriving DecidableEq, Repr

/-- Console panels/messages, abstracted to their identity. -/
inductive Msg where
  | errDevModeCount
  | warnPortShortfall (found requested : Nat)
  | devModeEnabled
  | warnSrcMissing
  | warnNoProjectRoot
  | foundDotEnv
  | usingEnvFile
  | errEnvFileMissing
  | errEnvFileNotFile
  | errNoEnvFile
  | launchFailed (name : String)
  | containerReady (name : String)
  | warnNotReady (name : String)
  | dryRunComplete (n : Nat)
  | infoNoContainers
  | destroySuccess (n : Nat)
  | destroyFailed (n : Nat)
  | errInteractiveMulti
  | noRunningContainers
  | interactiveMode
  | restartOk (name : String)
  | restartFail (name : String)
  | restartComplete (ok total : Nat)
deriving DecidableEq, Repr

/-- The `sys.exit(1)` sites of the embedded subcommands. -/
inductive ExitReason where
  | devModeCount
  | envFileNotFound
  | envFileNotFile
  | noEnvFile
  | restartFailed
deriving DecidableEq, Repr

/-- Arguments of `mw env run` (the `argparse.Namespace` consumed by
`_launch_containers`). -/
structure RunArgs where
  count : Nat
  backend_start_port : Nat
  viewer_start_port : Nat
  vnc_start_port : Nat
  adb_start_port : Nat
  namePfx : String
  image : String
  dev : Bool
  vnc : Bool
  dryRun : Bool
  mountSrc : Bool
  envFile : Option String
  launchInterval : Nat

/-- Oracle for the external collaborators consulted by `_launch_containers`:
`find_available_ports` / `find_next_container_index` / `launch_container`
(`core/api/env.py`), the filesystem, and the per-port health endpoint
(`healthy port t` = does the backend on `port` answer healthy at second
`t`, counted from the start of the readiness phase). -/
structure LaunchWorld where
  availablePorts : Nat → Nat → Nat → Nat → Nat → List (Nat × Nat × Nat × Nat)
  nextContainerIndex : String → Bool → Nat
  launchOK : ContainerConfig → Bool
  healthy : Nat → Nat → Bool
  dotEnvExists : Bool
  pathExists : String → Bool
  pathIsFile : String → Bool
  projectRoot : Option String
  srcExists : Bool

/-- Dev-source resolution in `_launch_containers` (lines 357–391): search
for a project root; if found and `root/src` exists, mount it. -/
def devSrcResolve (w : LaunchWorld) (a : RunArgs) : Option String × List Msg :=
  if a.dev ∨ a.mountSrc then
    match w.projectRoot with
    | some root =>
        if w.srcExists then (some (root ++ "/src"), [Msg.devModeEnabled])
        else (none, [Msg.warnSrcMissing])
    | none => (none, [Msg.warnNoProjectRoot])
  else (none, [])

/-- The `.env` resolution in `_launch_containers` (lines 393–442): prefer
`./​.env`; otherwise require `--env-file` to exist and be a file; otherwise
`sys.exit(1)`. -/
def envFileResolve (w : LaunchWorld) (a : RunArgs) :
    Except (ExitReason × Msg) (String × Msg) :=
  if w.dotEnvExists then Except.ok (".env", Msg.foundDotEnv)
  else
    match a.envFile with
    | some p =>
        if ¬ w.pathExists p then Except.error (ExitReason.envFileNotFound, Msg.errEnvFileMissing)
        else if ¬ w.pathIsFile p then Except.error (ExitReason.envFileNotFile, Msg.errEnvFileNotFile)
        else Except.ok (p, Msg.usingEnvFile)
    | none => Except.error (ExitReason.noEnvFile, Msg.errNoEnvFile)

/-- The config-building loop of `_launch_containers` (lines 454–469):
`name = f"{args.name_prefix}_{start_index + i}{'_dev' if args.dev else ''}"`
over the enumerated port sets. -/
def buildConfigs (a : RunArgs) (startIndex : Nat) (envPath : Option String)
    (devSrc : Option String) (portSets : List (Nat × Nat × Nat × Nat)) :
    List ContainerConfig :=
  portSets.enum.map fun p =>
    { name := a.namePfx ++ "_" ++ toString (startIndex + p.1)
        ++ (if a.dev then "_dev" else "")
      backend_port := p.2.1
      viewer_port := p.2.2.1
      vnc_port := p.2.2.2.1
      adb_port := p.2.2.2.2
      image := a.image
      dev_mode := a.dev
      enable_vnc := a.vnc ∨ a.dev
      env_file_path := envPath
      dev_src_path := devSrc }

/-- The planning slice of `_launch_containers` up to line 469: port sets,
next index, and the planned `ContainerConfig` list. -/
def plannedConfigs (w : LaunchWorld) (a : RunArgs) : List ContainerConfig :=
  let portSets := w.availablePorts a.backend_start_port a.viewer_start_port
      a.vnc_start_port a.adb_start_port a.count
  let envPath : Option String :=
    match envFileResolve w a with
    | Except.ok pm => some pm.1
    | Except.error _ => none
  buildConfigs a (w.nextContainerIndex a.namePfx a.dev) envPath
    (devSrcResolve w a).1 portSets

/-- Environment variables passed to `build_run_command` (lines 504–506). -/
def containerEnvVars (c : ContainerConfig) : List (String × String) :=
  if c.enable_vnc ∨ c.dev_mode then [("ENABLE_VNC", "true")] else []

/-- Volume mounts passed to `build_run_command` (lines 508–512). -/
def containerVolumes (c : ContainerConfig) : List (String × String) :=
  (match c.dev_src_path with
   | some p => [(p, "/app/service/src")]
   | none => []) ++
  (match c.env_file_path with
   | some p => [(p, "/app/service/.env")]
   | none => [])

/-- Port mappings passed to `build_run_command` (lines 517–521): exactly
`[(backend_port, 6800), (viewer_port, 7860), (vnc_port, 5800)]`. -/
def portMappings (c : ContainerConfig) : List (Nat × Nat) :=
  [(c.backend_port, 6800), (c.viewer_port, 7860), (c.vnc_port, 5800)]

/-- The launch loop of `_launch_containers` (lines 555–602): one
`launch_container` call per config in order; a successful launch appends a
`LaunchedEntry` with `ready := false`, a failed one only reports; between
consecutive launches (`idx < len - 1`) with a positive interval the loop
sleeps.  Returns `(launched, events, msgs)`. -/
def launchLoop (launchOK : ContainerConfig → Bool) (interval total : Nat) :
    List ContainerConfig → Nat → List LaunchedEntry × List Event × List Msg
  | [], _ => ([], [], [])
  | c :: rest, idx =>
    let hit := launchOK c
    let entries : List LaunchedEntry :=
      if hit then
        [{ name := c.name, backend_port := c.backend_port,
           viewer_port := c.viewer_port, vnc_port := c.vnc_port,
           adb_port := c.adb_port, ready := false }]
      else []
    let ms : List Msg := if hit then [] else [Msg.launchFailed c.name]
    let sleeps : List Event :=
      if 0 < interval ∧ idx < total - 1 then [Event.sleepBetween interval] else []
    let r := launchLoop launchOK interval total rest (idx + 1)
    (entries ++ r.1, Event.runtimeLaunch c.name :: (sleeps ++ r.2.1), ms ++ r.2.2)

/-- The `while time.time() - start_time < timeout` loop of
`_wait_for_container_ready_with_progress`, unrolled: `k` failing probes
remain, each costing one second; a healthy probe returns at once. -/
def waitReadySteps (healthy : Nat → Bool) : Nat → Nat → Bool × Nat
  | 0, now => (false, now)
  | k + 1, now => if healthy now then (true, now) else waitReadySteps healthy k (now + 1)

/-- Embeds `_wait_for_container_ready_with_progress(backend_port, timeout,
start_time)` (lines 284–321): polls from wall-clock second `now` while
`now - startTime < timeout`, i.e. for `startTime + timeout - now` probes.
Returns whether the container became ready and the time when the wait
ended. -/
def waitReadyLoop (healthy : Nat → Bool) (startTime timeout now : Nat) : Bool × Nat :=
  waitReadySteps healthy (startTime + timeout - now) now

/-- The readiness block of `_launch_containers` (lines 614–629): iterate
over `launched`, calling `_wait_for_container_ready_with_progress(port,
timeout, start_time=start_time)` with the one `start_time` taken before
the loop; set `ready := true` on success, warn on timeout, and continue
with the next entry at the wall-clock time where the previous wait ended. -/
def readinessPhase (healthy : Nat → Nat → Bool) (startTime timeout : Nat) :
    List LaunchedEntry → Nat → List LaunchedEntry × Nat × List Event × List Msg
  | [], now => ([], now, [], [])
  | e :: rest, now =>
    let res := waitReadyLoop (healthy e.backend_port) startTime timeout now
    let m : Msg := if res.1 then Msg.containerReady e.name else Msg.warnNotReady e.name
    let r := readinessPhase healthy startTime timeout rest res.2
    ({ e with ready := res.1 } :: r.1, r.2.1,
      Event.waitReady e.name e.backend_port :: r.2.2.1, m :: r.2.2.2)

instance {ε α : Type} [DecidableEq ε] [DecidableEq α] : DecidableEq (Except ε α) := fun
  | Except.error a, Except.error b =>
      if h : a = b then isTrue (congrArg Except.error h)
      else isFalse fun hh => h (Except.error.inj hh)
  | Except.error _, Except.ok _ => isFalse fun hh => Except.noConfusion hh
  | Except.ok _, Except.error _ => isFalse fun hh => Except.noConfusion hh
  | Except.ok a, Except.ok b =>
      if h : a = b then isTrue (congrArg Except.ok h)
      else isFalse fun hh => h (Except.ok.inj hh)

/-- Result of `_launch_containers`: the final `launched` list (with
readiness flags), the side-effect trace and the console messages. -/
structure RunOutput where
  result : Except ExitReason (List LaunchedEntry)
  events : List Event
  msgs : List Msg
deriving DecidableEq, Repr

/-- Embeds `_launch_containers(args)` (lines 324–672).  Sequence, mirroring the
source: dev-mode/count check → `find_available_ports` (+ shortfall
warning) → dev-src and `.env` resolution (each may `sys.exit`) →
`find_next_container_index` → config building → dry-run early return →
launch loop with stagger → readiness waits sharing the single
`start_time = time.time()` taken at line 614 (modelled as second 0). -/
def launchContainers (w : LaunchWorld) (a : RunArgs) : RunOutput :=
  if a.dev ∧ a.count > 1 then
    { result := Except.error ExitReason.devModeCount, events := [],
      msgs := [Msg.errDevModeCount] }
  else
    let portSets := w.availablePorts a.backend_start_port a.viewer_start_port
        a.vnc_start_port a.adb_start_port a.count
    let shortfall : List Msg :=
      if portSets.length < a.count then
        [Msg.warnPortShortfall portSets.length a.count] else []
    let devSrc := devSrcResolve w a
    match envFileResolve w a with
    | Except.error em =>
        { result := Except.error em.1, events := [Event.findPorts],
          msgs := shortfall ++ devSrc.2 ++ [em.2] }
    | Except.ok pm =>
        let startIndex := w.nextContainerIndex a.namePfx a.dev
        let configs := buildConfigs a startIndex (some pm.1) devSrc.1 portSets
        if a.dryRun then
          { result := Except.ok [], events := [Event.findPorts, Event.queryNextIndex],
            msgs := shortfall ++ devSrc.2 ++ [pm.2, Msg.dryRunComplete configs.length] }
        else
          let lr := launchLoop w.launchOK a.launchInterval configs.length configs 0
          let rp :=
            if lr.1 = [] then ([], 0, [], [])
            else readinessPhase w.healthy 0 600 lr.1 0
          { result := Except.ok rp.1,
            events := [Event.findPorts, Event.queryNextIndex] ++ lr.2.1 ++ rp.2.2.1,
            msgs := shortfall ++ devSrc.2 ++ [pm.2] ++ lr.2.2 ++ rp.2.2.2 }

/-! ## `mw env rm` — `_destroy_containers` -/

/-- Arguments of `mw env rm` consumed by `_destroy_containers`. -/
structure DestroyArgs where
  container_names : List String
  all : Bool
  image : String
  namePfx : String

/-- Oracle for `_destroy_containers`: the runtime's current container
names, which of them match the image/name-prefix filter, and whether the
runtime's removal of a given container succeeds. -/
structure DestroyWorld where
  fleet : List String
  matchesFilter : String → Bool
  removeOK : String → Bool

/-- Modelled from the spec: `remove_containers` lives in
`mobile_world/core/api/env.py`, which is not among the provided sources.
Per §4.3 (Destroy), §4.5 and §7 (NotFound) of the spec: given an explicit
list of names it removes those that exist — a name that does not exist is
skipped, idempotent-success, neither destroyed nor failed; given no list
it removes every instance matching the image/name-prefix filter; it
returns the partition `(destroyed, failed)` of the attempted names. -/
def remove_containers (w : DestroyWorld) (containerNames : Option (List String)) :
    List String × List String :=
  let targets : List String :=
    match containerNames with
    | some names => names.filter (fun n => w.fleet.contains n)
    | none => w.fleet.filter w.matchesFilter
  (targets.filter w.removeOK, targets.filter (fun n => ! w.removeOK n))

/-- Result of `_destroy_containers`. -/
structure DestroyOutput where
  destroyed : List String
  failed : List String
  msgs : List Msg
deriving DecidableEq, Repr

/-- Embeds `_destroy_containers(args)` (lines 675–713): pass the explicit name
list only when given and `--all` is absent; report "No containers to
destroy" informationally when both partitions are empty, otherwise report
the successes and failures. -/
def destroyContainers (w : DestroyWorld) (a : DestroyArgs) : DestroyOutput :=
  let containerNames : Option (List String) :=
    if ¬ a.all ∧ a.container_names ≠ [] then some a.container_names else none
  let dr := remove_containers w containerNames
  if dr.1 = [] ∧ dr.2 = [] then
    { destroyed := dr.1, failed := dr.2, msgs := [Msg.infoNoContainers] }
  else
    { destroyed := dr.1, failed := dr.2,
      msgs := (if dr.1 ≠ [] then [Msg.destroySuccess dr.1.length] else []) ++
              (if dr.2 ≠ [] then [Msg.destroyFailed dr.2.length] else []) }

/-! ## `mw env restart` — `_restart_server` / `_restart_single_container` -/

/-- A row of the `list_containers` result (the fields `_restart_server`
reads: `name` and `running`). -/
structure RuntimeContainer where
  name : String
  running : Bool
deriving DecidableEq, Repr

/-- Arguments of `mw env restart` consumed by `_restart_server`. -/
structure RestartArgs where
  container_name : Option String
  interactive : Bool
  image : String
  namePfx : String

/-- Oracle for `_restart_server`: name resolution, the two in-container
runtime calls, and the `list_containers` query result. -/
structure RestartWorld where
  resolveName : String → String → String
  killOK : String → Bool
  restartOK : String → Bool
  containers : List RuntimeContainer

/-- Embeds `_restart_single_container(container_name, interactive)` (lines
855–916): kill the in-container server (failure returns `False` at once);
in interactive mode replace the process with an in-container session and
return `True`; otherwise restart the server detached and report. -/
def restartSingleContainer (w : RestartWorld) (name : String) (interactive : Bool) :
    Bool × List Event × List Msg :=
  if ¬ w.killOK name then (false, [Event.killServer name], [])
  else if interactive then
    (true, [Event.killServer name, Event.execReplace name], [Msg.interactiveMode])
  else if w.restartOK name then
    (true, [Event.killServer name, Event.restartServerCall name], [Msg.restartOk name])
  else
    (false, [Event.killServer name, Event.restartServerCall name], [Msg.restartFail name])

/-- The loop of `_restart_server` over the running containers (lines
962–966), each restarted with `interactive=False`; counts successes. -/
def restartAll (w : RestartWorld) : List RuntimeContainer → Nat × List Event × List Msg
  | [] => (0, [], [])
  | c :: rest =>
    let one := restartSingleContainer w c.name false
    let r := restartAll w rest
    ((if one.1 then 1 else 0) + r.1, one.2.1 ++ r.2.1, one.2.2 ++ r.2.2)

/-- Result of `_restart_server`. -/
structure RestartOutput where
  result : Except ExitReason Unit
  events : List Event
  msgs : List Msg
deriving DecidableEq, Repr

/-- Embeds `_restart_server(args)` (lines 919–975): with an explicit name,
resolve it and restart that single container (honouring `-i`), exiting
nonzero on failure; without a name, `-i` is rejected immediately
(`sys.exit(1)` before any query), else every running container matching
the filter is restarted non-interactively. -/
def restartServer (w : RestartWorld) (a : RestartArgs) : RestartOutput :=
  match a.container_name with
  | some short =>
      let full := w.resolveName short a.namePfx
      let one := restartSingleContainer w full a.interactive
      { result := if one.1 then Except.ok () else Except.error ExitReason.restartFailed,
        events := Event.resolveNameQuery short :: one.2.1, msgs := one.2.2 }
  | none =>
      if a.interactive then
        { result := Except.error ExitReason.restartFailed, events := [],
          msgs := [Msg.errInteractiveMulti] }
      else
        let running := w.containers.filter (fun c => c.running)
        if running = [] then
          { result := Except.ok (), events := [Event.listContainersQuery],
            msgs := [Msg.noRunningContainers] }
        else
          let r := restartAll w running
          { result := Except.ok (),
            events := Event.listContainersQuery :: r.2.1,
            msgs := r.2.2 ++ [Msg.restartComplete r.1 running.length] }

/-! ## Concrete fixtures used by witnesses and counterexamples -/

/-- Three disjoint port quadruples starting at the default base ports. -/
def testPortSets : List (Nat × Nat × Nat × Nat) :=
  [(6800, 7860, 5800, 5556), (6801, 7861, 5801, 5557), (6802, 7862, 5802, 5558)]

/-- A benign world: ports available, every launch accepted, every backend
healthy at once, `.env` present in the working directory. -/
def testWorld : LaunchWorld :=
  { availablePorts := fun _ _ _ _ count => testPortSets.take count
    nextContainerIndex := fun _ _ => 0
    launchOK := fun _ => true
    healthy := fun _ _ => true
    dotEnvExists := true
    pathExists := fun _ => true
    pathIsFile := fun _ => true
    projectRoot := none
    srcExists := false }

/-- Default `mw env run` arguments with `--count 3`. -/
def testArgs : RunArgs :=
  { count := 3
    backend_start_port := 6800
    viewer_start_port := 7860
    vnc_start_port := 5800
    adb_start_port := 5556
    namePfx := "mobile_world"
    image := "mobile_world:latest"
    dev := false
    vnc := false
    dryRun := false
    mountSrc := false
    envFile := none
    launchInterval := 10 }

/-! ## Helper lemmas -/

theorem envFileResolve_of_dotEnv (w : LaunchWorld) (a : RunArgs)
    (h : w.dotEnvExists = true) :
    envFileResolve w a = Except.ok (".env", Msg.foundDotEnv) := by
  simp [envFileResolve, h]

theorem restartSingleContainer_no_execReplace (w : RestartWorld) (name n : String) :
    Event.execReplace n ∉ (restartSingleContainer w name false).2.1 := by
  unfold restartSingleContainer
  by_cases hk : w.killOK name <;> by_cases hr : w.restartOK name <;> simp [hk, hr]

theorem restartAll_no_execReplace (w : RestartWorld) (n : String) :
    ∀ l : List RuntimeContainer, Event.execReplace n ∉ (restartAll w l).2.1 := by
  intro l
  induction l with
  | nil => simp [restartAll]
  | cons c rest ih =>
      simp only [restartAll, List.mem_append]
      rintro (h | h)
      · exact restartSingleContainer_no_execReplace w c.name n h
      · exact ih h

/-! ## C2 -/

/-- C2: if dev mode is requested together with `count > 1`, the launch
operation fails fast as a configuration error before any side effect —
the result is the `devModeCount` exit and the event trace is empty (no
port allocation, no runtime call, no launch). -/
theorem dev_mode_multi_count_rejected_before_side_effects
    (w : LaunchWorld) (a : RunArgs) (hdev : a.dev = true) (hc : 1 < a.count) :
    (launchContainers w a).result = Except.error ExitReason.devModeCount ∧
    (launchContainers w a).events = [] := by
  have hcond : a.dev = true ∧ a.count > 1 := ⟨hdev, hc⟩
  constructor <;> simp [launchContainers, hcond]

theorem dev_mode_multi_count_rejected_witness :
    (launchContainers testWorld
        { testArgs with dev := true, count := 2 }).result =
      Except.error ExitReason.devModeCount ∧
    (launchContainers testWorld
        { testArgs with dev := true, count := 2 }).events = [] :=
  dev_mode_multi_count_rejected_before_side_effects testWorld
    { testArgs with dev := true, count := 2 } rfl (by decide)

/-! ## C8 -/

/-- C8: destroying names none of which exist succeeds idempotently —
`remove_containers` yields the partition `([], [])` and the subcommand
reports this informationally (`infoNoContainers`), not as a failure. -/
theorem destroy_nonexistent_is_idempotent_success
    (w : DestroyWorld) (a : DestroyArgs) (hall : a.all = false)
    (hne : a.container_names ≠ [])
    (h : ∀ n ∈ a.container_names, n ∉ w.fleet) :
    destroyContainers w a =
      { destroyed := [], failed := [], msgs := [Msg.infoNoContainers] } := by
  have htargets : a.container_names.filter (fun n => w.fleet.contains n) = [] := by
    rw [List.filter_eq_nil_iff]
    intro n hn
    simpa using h n hn
  have hsel : (if ¬ a.all ∧ a.container_names ≠ [] then some a.container_names else none)
      = some a.container_names := if_pos ⟨by simp [hall], hne⟩
  simp only [destroyContainers, hsel, remove_containers, htargets, List.filter_nil]
  simp

theorem destroy_nonexistent_witness :
    destroyContainers
        { fleet := ["mobile_world_0"], matchesFilter := fun _ => true,
          removeOK := fun _ => true }
        { container_names := ["ghost"], all := false,
          image := "mobile_world:latest", namePfx := "mobile_world" } =
      { destroyed := [], failed := [], msgs := [Msg.infoNoContainers] } :=
  destroy_nonexistent_is_idempotent_success _ _ rfl (by decide) (by decide)

/-! ## C9 -/

/-- C9: the docker run command built from a planned configuration maps
exactly three host ports — backend to 6800, viewer to 7860, VNC to 5800 —
and the descriptor's `adb_port` (distinct from the three mapped host
ports) never appears among the port mappings. -/
theorem run_command_maps_exactly_three_ports_without_adb
    (c : ContainerConfig)
    (h : c.adb_port ≠ c.backend_port ∧ c.adb_port ≠ c.viewer_port ∧
         c.adb_port ≠ c.vnc_port) :
    portMappings c =
      [(c.backend_port, 6800), (c.viewer_port, 7860), (c.vnc_port, 5800)] ∧
    (portMappings c).length = 3 ∧
    ∀ cp, (c.adb_port, cp) ∉ portMappings c := by
  refine ⟨rfl, rfl, ?_⟩
  intro cp
  simp [portMappings, h.1, h.2.1, h.2.2]

theorem run_command_ports_witness :
    portMappings
        { name := "mobile_world_0", backend_port := 6800, viewer_port := 7860,
          vnc_port := 5800, adb_port := 5556, image := "mobile_world:latest",
          dev_mode := false, enable_vnc := false, env_file_path := some ".env",
          dev_src_path := none } =
      [(6800, 6800), (7860, 7860), (5800, 5800)] ∧
    (5556, 6800) ∉ portMappings
        { name := "mobile_world_0", backend_port := 6800, viewer_port := 7860,
          vnc_port := 5800, adb_port := 5556, image := "mobile_world:latest",
          dev_mode := false, enable_vnc := false, env_file_path := some ".env",
          dev_src_path := none } :=
  ⟨(run_command_maps_exactly_three_ports_without_adb _
      (by exact ⟨by decide, by decide, by decide⟩)).1,
   (run_command_maps_exactly_three_ports_without_adb _
      (by exact ⟨by decide, by decide, by decide⟩)).2.2 6800⟩

/-! ## C10 -/

/-- C10: invoking restart with `-i` but no container name is rejected
with an error before any container is listed, queried or restarted (empty
event trace); and with no name given, no interactive exec ever occurs, so
a multi-instance restart never enters interactive mode. -/
theorem restart_interactive_without_name_rejected
    (w : RestartWorld) (a : RestartArgs) (h : a.container_name = none) :
    (a.interactive = true →
      (restartServer w a).result = Except.error ExitReason.restartFailed ∧
      (restartServer w a).events = []) ∧
    ∀ n, Event.execReplace n ∉ (restartServer w a).events := by
  cases hi : a.interactive with
  | true =>
      constructor
      · intro _
        constructor <;> simp [restartServer, h, hi]
      · intro n
        simp [restartServer, h, hi]
  | false =>
      refine ⟨fun hc => by simp [hi] at hc, ?_⟩
      intro n
      by_cases hr : w.containers.filter (fun c => c.running) = []
      · simp [restartServer, h, hi, hr]
      · simp only [restartServer, h, hi, Bool.false_eq_true, if_false, hr,
          List.mem_cons, not_or]
        exact ⟨by simp, restartAll_no_execReplace w n _⟩

theorem restart_interactive_without_name_witness :
    ((restartServer
        { resolveName := fun s _ => s, killOK := fun _ => true,
          restartOK := fun _ => true,
          containers := [{ name := "mobile_world_0", running := true }] }
        { container_name := none, interactive := true,
          image := "mobile_world:latest", namePfx := "mobile_world" }).result =
      Except.error ExitReason.restartFailed ∧
     (restartServer
        { resolveName := fun s _ => s, killOK := fun _ => true,
          restartOK := fun _ => true,
          containers := [{ name := "mobile_world_0", running := true }] }
        { container_name := none, interactive := true,
          image := "mobile_world:latest", namePfx := "mobile_world" }).events = []) :=
  (restart_interactive_without_name_rejected _ _ rfl).1 rfl

/-! ## C1 -/

/-- A world in which backend port 6800 never answers healthy and backend
port 6801 answers healthy from second 300 of the readiness phase onward —
comfortably inside a 600-second budget of its own. -/
def sharedBudgetWorld : LaunchWorld :=
  { testWorld with healthy := fun port t => port == 6801 && decide (300 ≤ t) }

/-- Arguments for `mw env run --count 2`. -/
def sharedBudgetArgs : RunArgs := { testArgs with count := 2 }

set_option maxRecDepth 100000 in
/-- C1: the readiness wait does NOT give each instance its own full
timeout budget.  `_launch_containers` takes one `start_time` before the
wait loop (line 614) and passes that same value to every
`_wait_for_container_ready_with_progress` call, so the first instance's
600-second wait exhausts the budget of the second: the second instance,
healthy from second 300 onward (well within a private 600-second budget),
is nevertheless reported not ready, while the same wait run with its own
timer (`startTime = 600`, the moment its wait begins) would report it
ready. -/
theorem readiness_timeout_budget_is_shared_across_batch :
    (launchContainers sharedBudgetWorld sharedBudgetArgs).result =
      Except.ok
        [{ name := "mobile_world_0", backend_port := 6800, viewer_port := 7860,
           vnc_port := 5800, adb_port := 5556, ready := false },
         { name := "mobile_world_1", backend_port := 6801, viewer_port := 7861,
           vnc_port := 5801, adb_port := 5557, ready := false }] ∧
    (waitReadyLoop (sharedBudgetWorld.healthy 6801) 600 600 600).1 = true := by
  decide

/-! ## C3 counterexample -/

/-- A world in which the runtime rejects exactly the launch of
`mobile_world_1` (the 2nd of 3 descriptors) and accepts the others. -/
def failSecondWorld : LaunchWorld :=
  { testWorld with launchOK := fun c => c.name != "mobile_world_1" }

/-- C3 (counterexample): launching 3 descriptors where the 2nd fails at
the runtime call yields a result containing entries for descriptors 1 and
3 only — the failed instance receives no outcome record at all (and the
entries carry no `success`/`error_message` fields); its failure surfaces
only as a console error message. -/
theorem failed_launch_has_no_outcome_record :
    (launchContainers failSecondWorld testArgs).result =
      Except.ok
        [{ name := "mobile_world_0", backend_port := 6800, viewer_port := 7860,
           vnc_port := 5800, adb_port := 5556, ready := true },
         { name := "mobile_world_2", backend_port := 6802, viewer_port := 7862,
           vnc_port := 5802, adb_port := 5558, ready := true }] ∧
    Msg.launchFailed "mobile_world_1" ∈ (launchContainers failSecondWorld testArgs).msgs := by
  decide

/-! ## Decomposition of the normal (non-dev-error, non-dry-run) launch path -/

/-- The `launched` list, launch events and launch messages of a run
(the launch loop applied to the planned configs). -/
def launchPhase (w : LaunchWorld) (a : RunArgs) :
    List LaunchedEntry × List Event × List Msg :=
  launchLoop w.launchOK a.launchInterval (plannedConfigs w a).length
    (plannedConfigs w a) 0

/-- The readiness block of a run (skipped when nothing launched). -/
def readyPhase (w : LaunchWorld) (a : RunArgs) :
    List LaunchedEntry × Nat × List Event × List Msg :=
  if (launchPhase w a).1 = [] then ([], 0, [], [])
  else readinessPhase w.healthy 0 600 (launchPhase w a).1 0

/-- The port-shortfall warning of a run, when one is due. -/
def shortfallMsgs (w : LaunchWorld) (a : RunArgs) : List Msg :=
  if (w.availablePorts a.backend_start_port a.viewer_start_port
        a.vnc_start_port a.adb_start_port a.count).length < a.count then
    [Msg.warnPortShortfall
      (w.availablePorts a.backend_start_port a.viewer_start_port
        a.vnc_start_port a.adb_start_port a.count).length a.count]
  else []

/-- On the normal path — dev/count check passed, `./.env` present,
not a dry run — `launchContainers` is the launch loop followed by the
readiness block, with the events and messages in program order. -/
theorem launchContainers_normal (w : LaunchWorld) (a : RunArgs)
    (hnd : ¬ (a.dev = true ∧ 1 < a.count)) (henv : w.dotEnvExists = true)
    (hdr : a.dryRun = false) :
    launchContainers w a =
      { result := Except.ok (readyPhase w a).1
        events := [Event.findPorts, Event.queryNextIndex]
          ++ (launchPhase w a).2.1 ++ (readyPhase w a).2.2.1
        msgs := shortfallMsgs w a ++ (devSrcResolve w a).2 ++ [Msg.foundDotEnv]
          ++ (launchPhase w a).2.2 ++ (readyPhase w a).2.2.2 } := by
  have he := envFileResolve_of_dotEnv w a henv
  simp only [launchContainers, if_neg hnd, he, hdr, Bool.false_eq_true, if_false,
    launchPhase, readyPhase, shortfallMsgs, plannedConfigs]

/-! ## Structure of the launch loop and the readiness block -/

/-- The `launched`-list entry recorded for a successfully launched
config (lines 568–577). -/
def toLaunchedEntry (c : ContainerConfig) : LaunchedEntry :=
  { name := c.name, backend_port := c.backend_port,
    viewer_port := c.viewer_port, vnc_port := c.vnc_port,
    adb_port := c.adb_port, ready := false }

theorem launchLoop_entries (ok : ContainerConfig → Bool) (interval total : Nat) :
    ∀ (cs : List ContainerConfig) (idx : Nat),
      (launchLoop ok interval total cs idx).1 = (cs.filter ok).map toLaunchedEntry := by
  intro cs
  induction cs with
  | nil => intro idx; rfl
  | cons c rest ih =>
      intro idx
      by_cases hc : ok c <;>
        simp [launchLoop, hc, ih, toLaunchedEntry, List.filter_cons]

/-- Predicate picking the runtime launch calls out of a trace. -/
def isRuntimeLaunch : Event → Bool
  | Event.runtimeLaunch _ => true
  | _ => false

theorem launchLoop_events_launches (ok : ContainerConfig → Bool) (interval total : Nat) :
    ∀ (cs : List ContainerConfig) (idx : Nat),
      ((launchLoop ok interval total cs idx).2.1).filter isRuntimeLaunch
        = cs.map (fun c => Event.runtimeLaunch c.name) := by
  intro cs
  induction cs with
  | nil => intro idx; rfl
  | cons c rest ih =>
      intro idx
      by_cases hs : 0 < interval ∧ idx < total - 1 <;>
        simp [launchLoop, hs, ih, isRuntimeLaunch, List.filter_cons]

theorem launchLoop_msgs (ok : ContainerConfig → Bool) (interval total : Nat) :
    ∀ (cs : List ContainerConfig) (idx : Nat),
      (launchLoop ok interval total cs idx).2.2
        = (cs.filter (fun c => ! ok c)).map (fun c => Msg.launchFailed c.name) := by
  intro cs
  induction cs with
  | nil => intro idx; rfl
  | cons c rest ih =>
      intro idx
      by_cases hc : ok c <;> simp [launchLoop, hc, ih, List.filter_cons]

theorem launchLoop_no_remove (ok : ContainerConfig → Bool) (interval total : Nat)
    (n : String) :
    ∀ (cs : List ContainerConfig) (idx : Nat),
      Event.runtimeRemove n ∉ (launchLoop ok interval total cs idx).2.1 := by
  intro cs
  induction cs with
  | nil => intro idx; simp [launchLoop]
  | cons c rest ih =>
      intro idx
      by_cases hs : 0 < interval ∧ idx < total - 1 <;>
        simp [launchLoop, hs, ih]

theorem readinessPhase_events (healthy : Nat → Nat → Bool) (s t : Nat) :
    ∀ (l : List LaunchedEntry) (now : Nat),
      (readinessPhase healthy s t l now).2.2.1
        = l.map (fun e => Event.waitReady e.name e.backend_port) := by
  intro l
  induction l with
  | nil => intro now; rfl
  | cons e rest ih => intro now; simp [readinessPhase, ih]

theorem readinessPhase_name_port (healthy : Nat → Nat → Bool) (s t : Nat) :
    ∀ (l : List LaunchedEntry) (now : Nat),
      (readinessPhase healthy s t l now).1.map (fun e => (e.name, e.backend_port))
        = l.map (fun e => (e.name, e.backend_port)) := by
  intro l
  induction l with
  | nil => intro now; rfl
  | cons e rest ih => intro now; simp [readinessPhase, ih]

theorem readinessPhase_names (healthy : Nat → Nat → Bool) (s t : Nat) :
    ∀ (l : List LaunchedEntry) (now : Nat),
      (readinessPhase healthy s t l now).1.map (fun e => e.name)
        = l.map (fun e => e.name) := by
  intro l
  induction l with
  | nil => intro now; rfl
  | cons e rest ih => intro now; simp [readinessPhase, ih]

theorem devSrcResolve_msg_shapes (w : LaunchWorld) (a : RunArgs) :
    ∀ m ∈ (devSrcResolve w a).2,
      m = Msg.devModeEnabled ∨ m = Msg.warnSrcMissing ∨ m = Msg.warnNoProjectRoot := by
  intro m hm
  unfold devSrcResolve at hm
  by_cases hdm : a.dev = true ∨ a.mountSrc = true
  · rw [if_pos hdm] at hm
    rcases hpr : w.projectRoot with _ | root <;> rw [hpr] at hm
    · simp at hm
      simp [hm]
    · have hm2 : m ∈ (if w.srcExists = true then
            (some (root ++ "/src"), [Msg.devModeEnabled])
          else ((none : Option String), [Msg.warnSrcMissing])).2 := hm
      by_cases hse : w.srcExists = true
      · rw [if_pos hse] at hm2
        simp at hm2
        simp [hm2]
      · rw [if_neg hse] at hm2
        simp at hm2
        simp [hm2]
  · rw [if_neg hdm] at hm
    simp at hm

theorem readinessPhase_warn_of_not_ready (healthy : Nat → Nat → Bool) (s t : Nat) :
    ∀ (l : List LaunchedEntry) (now : Nat) (e : LaunchedEntry),
      e ∈ (readinessPhase healthy s t l now).1 → e.ready = false →
      Msg.warnNotReady e.name ∈ (readinessPhase healthy s t l now).2.2.2 := by
  intro l
  induction l with
  | nil => intro now e he; simp [readinessPhase] at he
  | cons e0 rest ih =>
      intro now e he hready
      simp only [readinessPhase, List.mem_cons] at he ⊢
      rcases he with he | he
      · subst he
        have hres : (waitReadyLoop (healthy e0.backend_port) s t now).1 = false := hready
        exact Or.inl (by simp [hres])
      · exact Or.inr (ih _ e he hready)

theorem readinessPhase_msg_shapes (healthy : Nat → Nat → Bool) (s t : Nat) :
    ∀ (l : List LaunchedEntry) (now : Nat) (m : Msg),
      m ∈ (readinessPhase healthy s t l now).2.2.2 →
      (∃ n, m = Msg.containerReady n) ∨ (∃ n, m = Msg.warnNotReady n) := by
  intro l
  induction l with
  | nil => intro now m hm; simp [readinessPhase] at hm
  | cons e rest ih =>
      intro now m hm
      simp only [readinessPhase, List.mem_cons] at hm
      rcases hm with hm | hm
      · by_cases hr : (waitReadyLoop (healthy e.backend_port) s t now).1 = true
        · rw [if_pos hr] at hm
          exact Or.inl ⟨e.name, hm⟩
        · rw [if_neg hr] at hm
          exact Or.inr ⟨e.name, hm⟩
      · exact ih _ m hm

/-- Launch-phase trace shape asserted by the spec (§4.5 Launch, §5,
Glossary "Stagger"): one launch call per descriptor in order, a stagger
sleep between successive launch calls and none after the last. -/
def specStaggerTrace (interval : Nat) : List String → List Event
  | [] => []
  | [n] => [Event.runtimeLaunch n]
  | n :: rest =>
      Event.runtimeLaunch n ::
        ((if 0 < interval then [Event.sleepBetween interval] else [])
          ++ specStaggerTrace interval rest)

theorem launchLoop_events_stagger (ok : ContainerConfig → Bool) (interval : Nat) :
    ∀ (cs : List ContainerConfig) (idx total : Nat), total = idx + cs.length →
      (launchLoop ok interval total cs idx).2.1
        = specStaggerTrace interval (cs.map (fun c => c.name)) := by
  intro cs
  induction cs with
  | nil => intro idx total _; rfl
  | cons c rest ih =>
      intro idx total htot
      cases rest with
      | nil =>
          have hns : ¬ (0 < interval ∧ idx < total - 1) := by
            rintro ⟨-, hlt⟩
            simp [List.length_cons] at htot
            omega
          simp [launchLoop, specStaggerTrace, hns]
      | cons c2 rs =>
          have hlt : idx < total - 1 := by
            simp [List.length_cons] at htot
            omega
          have ihh := ih (idx + 1) total (by simp [List.length_cons] at htot ⊢; omega)
          have hstep : (launchLoop ok interval total (c :: c2 :: rs) idx).2.1
              = Event.runtimeLaunch c.name ::
                  ((if 0 < interval ∧ idx < total - 1 then
                      [Event.sleepBetween interval] else [])
                    ++ (launchLoop ok interval total (c2 :: rs) (idx + 1)).2.1) := rfl
          rw [hstep, ihh, List.map_cons]
          simp only [and_iff_left hlt]
          rfl

/-! ## C3 (amended) -/

/-- C3 (amended): a runtime launch failure of one descriptor does not
abort the sibling launches — every descriptor still gets its launch call,
in order; every accepted descriptor gets an entry in the launch results;
the failed descriptor's failure is reported as an error message naming
that instance only, but it receives no outcome record (it is omitted from
the results rather than appearing with `success=false`). -/
theorem launch_failure_does_not_abort_siblings (w : LaunchWorld) (a : RunArgs)
    (hnd : ¬ (a.dev = true ∧ 1 < a.count)) (henv : w.dotEnvExists = true)
    (hdr : a.dryRun = false) :
    ((launchContainers w a).events.filter isRuntimeLaunch
        = (plannedConfigs w a).map (fun c => Event.runtimeLaunch c.name)) ∧
    (∃ l, (launchContainers w a).result = Except.ok l ∧
      l.map (fun e => e.name)
        = ((plannedConfigs w a).filter w.launchOK).map (fun c => c.name)) ∧
    ∀ c ∈ plannedConfigs w a, w.launchOK c = false →
      Msg.launchFailed c.name ∈ (launchContainers w a).msgs := by
  rw [launchContainers_normal w a hnd henv hdr]
  have hentries : (launchPhase w a).1
      = ((plannedConfigs w a).filter w.launchOK).map toLaunchedEntry :=
    launchLoop_entries w.launchOK a.launchInterval
      (plannedConfigs w a).length (plannedConfigs w a) 0
  refine ⟨?_, ⟨(readyPhase w a).1, rfl, ?_⟩, ?_⟩
  · have h1 := launchLoop_events_launches w.launchOK a.launchInterval
      (plannedConfigs w a).length (plannedConfigs w a) 0
    have h2 : (readyPhase w a).2.2.1.filter isRuntimeLaunch = [] := by
      rw [List.filter_eq_nil_iff]
      intro m hm
      unfold readyPhase at hm
      by_cases hl : (launchPhase w a).1 = []
      · simp [hl] at hm
      · rw [if_neg hl, readinessPhase_events] at hm
        rcases List.mem_map.mp hm with ⟨e, -, hme⟩
        rw [← hme]
        simp [isRuntimeLaunch]
    have h0 : ([Event.findPorts, Event.queryNextIndex]).filter isRuntimeLaunch
        = [] := rfl
    simp only [List.filter_append, h0, h2, List.nil_append, List.append_nil]
    exact h1
  · unfold readyPhase
    by_cases hl : (launchPhase w a).1 = []
    · rw [if_pos hl]
      rw [hentries] at hl
      have hnil : (plannedConfigs w a).filter w.launchOK = [] :=
        List.map_eq_nil_iff.mp hl
      simp [hnil]
    · rw [if_neg hl]
      rw [readinessPhase_names, hentries, List.map_map]
      rfl
  · intro c hc hfail
    have hm := launchLoop_msgs w.launchOK a.launchInterval
      (plannedConfigs w a).length (plannedConfigs w a) 0
    have : Msg.launchFailed c.name ∈ (launchPhase w a).2.2 := by
      unfold launchPhase
      rw [hm]
      exact List.mem_map.mpr ⟨c, List.mem_filter.mpr ⟨hc, by simp [hfail]⟩, rfl⟩
    simp [this]

theorem launch_failure_siblings_witness :
    (launchContainers failSecondWorld testArgs).events.filter isRuntimeLaunch
      = (plannedConfigs failSecondWorld testArgs).map
          (fun c => Event.runtimeLaunch c.name) :=
  (launch_failure_does_not_abort_siblings failSecondWorld testArgs
    (by decide) rfl rfl).1

/-! ## C4 -/

/-- C4: when fewer free port quadruples are found than requested, the
launch proceeds with exactly as many instances as quadruples found (one
launch call each), does not fail the batch, and the shortfall warning is
emitted precisely in that case — a reduction is never silent. -/
theorem port_shortfall_warns_and_degrades (w : LaunchWorld) (a : RunArgs)
    (hnd : ¬ (a.dev = true ∧ 1 < a.count)) (henv : w.dotEnvExists = true)
    (hdr : a.dryRun = false) :
    (Msg.warnPortShortfall
        (w.availablePorts a.backend_start_port a.viewer_start_port
          a.vnc_start_port a.adb_start_port a.count).length a.count
        ∈ (launchContainers w a).msgs
      ↔ (w.availablePorts a.backend_start_port a.viewer_start_port
          a.vnc_start_port a.adb_start_port a.count).length < a.count) ∧
    ((launchContainers w a).events.filter isRuntimeLaunch).length
      = (w.availablePorts a.backend_start_port a.viewer_start_port
          a.vnc_start_port a.adb_start_port a.count).length ∧
    ∃ l, (launchContainers w a).result = Except.ok l := by
  rw [launchContainers_normal w a hnd henv hdr]
  have hlen : (plannedConfigs w a).length
      = (w.availablePorts a.backend_start_port a.viewer_start_port
          a.vnc_start_port a.adb_start_port a.count).length := by
    simp [plannedConfigs, buildConfigs]
  refine ⟨⟨?_, ?_⟩, ?_, ⟨(readyPhase w a).1, rfl⟩⟩
  · intro hmem
    by_contra hge
    have hsf : shortfallMsgs w a = [] := if_neg hge
    rw [hsf] at hmem
    simp only [List.nil_append, List.mem_append] at hmem
    rcases hmem with ((hdev | hfound) | hlaunch) | hready
    · rcases devSrcResolve_msg_shapes w a _ hdev with h | h | h <;>
        exact Msg.noConfusion h
    · simp at hfound
    · unfold launchPhase at hlaunch
      rw [launchLoop_msgs] at hlaunch
      rcases List.mem_map.mp hlaunch with ⟨c, -, hcm⟩
      exact Msg.noConfusion hcm
    · unfold readyPhase at hready
      by_cases hl : (launchPhase w a).1 = []
      · simp [hl] at hready
      · rw [if_neg hl] at hready
        rcases readinessPhase_msg_shapes w.healthy 0 600 _ 0 _ hready with
          ⟨n, hn⟩ | ⟨n, hn⟩ <;> exact Msg.noConfusion hn
  · intro hlt
    have hsf : shortfallMsgs w a
        = [Msg.warnPortShortfall
            (w.availablePorts a.backend_start_port a.viewer_start_port
              a.vnc_start_port a.adb_start_port a.count).length a.count] :=
      if_pos hlt
    simp [hsf]
  · have h1 := launchLoop_events_launches w.launchOK a.launchInterval
      (plannedConfigs w a).length (plannedConfigs w a) 0
    have h2 : (readyPhase w a).2.2.1.filter isRuntimeLaunch = [] := by
      rw [List.filter_eq_nil_iff]
      intro m hm
      unfold readyPhase at hm
      by_cases hl : (launchPhase w a).1 = []
      · simp [hl] at hm
      · rw [if_neg hl, readinessPhase_events] at hm
        rcases List.mem_map.mp hm with ⟨e, -, hme⟩
        rw [← hme]
        simp [isRuntimeLaunch]
    simp only [List.filter_append, launchPhase, h1, h2, List.append_nil]
    rw [← hlen]
    simp [isRuntimeLaunch]

theorem port_shortfall_witness :
    (Msg.warnPortShortfall 3 4
        ∈ (launchContainers testWorld { testArgs with count := 4 }).msgs) ∧
    ((launchContainers testWorld
        { testArgs with count := 4 }).events.filter isRuntimeLaunch).length = 3 :=
  by
    have h := port_shortfall_warns_and_degrades testWorld
      { testArgs with count := 4 } (by decide) rfl rfl
    exact ⟨h.1.mpr (by decide), h.2.1.trans (by decide)⟩

/-! ## C5 -/

/-- C5: launch calls are issued strictly in descriptor order with the
configured stagger sleep between successive launch calls and none after
the last; readiness polling comes only after every launch call in the
batch, and exactly for the instances whose launch call succeeded. -/
theorem launches_ordered_staggered_then_readiness (w : LaunchWorld) (a : RunArgs)
    (hnd : ¬ (a.dev = true ∧ 1 < a.count)) (henv : w.dotEnvExists = true)
    (hdr : a.dryRun = false) :
    (launchContainers w a).events =
      [Event.findPorts, Event.queryNextIndex]
      ++ specStaggerTrace a.launchInterval
          ((plannedConfigs w a).map (fun c => c.name))
      ++ ((plannedConfigs w a).filter w.launchOK).map
          (fun c => Event.waitReady c.name c.backend_port) := by
  rw [launchContainers_normal w a hnd henv hdr]
  have hentries : (launchPhase w a).1
      = ((plannedConfigs w a).filter w.launchOK).map toLaunchedEntry :=
    launchLoop_entries w.launchOK a.launchInterval
      (plannedConfigs w a).length (plannedConfigs w a) 0
  have h1 : (launchPhase w a).2.1
      = specStaggerTrace a.launchInterval
          ((plannedConfigs w a).map (fun c => c.name)) :=
    launchLoop_events_stagger w.launchOK a.launchInterval
      (plannedConfigs w a) 0 (plannedConfigs w a).length (by simp)
  have h2 : (readyPhase w a).2.2.1
      = ((plannedConfigs w a).filter w.launchOK).map
          (fun c => Event.waitReady c.name c.backend_port) := by
    unfold readyPhase
    by_cases hl : (launchPhase w a).1 = []
    · rw [if_pos hl]
      rw [hentries] at hl
      have hnil : (plannedConfigs w a).filter w.launchOK = [] :=
        List.map_eq_nil_iff.mp hl
      simp [hnil]
    · rw [if_neg hl, readinessPhase_events, hentries, List.map_map]
      rfl
  rw [h1, h2]

theorem launches_ordered_witness :
    (launchContainers testWorld testArgs).events =
      [Event.findPorts, Event.queryNextIndex]
      ++ specStaggerTrace testArgs.launchInterval
          ((plannedConfigs testWorld testArgs).map (fun c => c.name))
      ++ ((plannedConfigs testWorld testArgs).filter testWorld.launchOK).map
          (fun c => Event.waitReady c.name c.backend_port) :=
  launches_ordered_staggered_then_readiness testWorld testArgs (by decide) rfl rfl

/-! ## C6 -/

/-- C6: an instance whose readiness poll times out keeps an outcome entry
with `ready = false` and a warning naming it; the operation issues no
runtime remove call at all, does not raise past the launch loop, and every
successfully launched instance — including those after a timed-out one —
still gets its readiness wait and its outcome entry. -/
theorem readiness_timeout_records_not_ready_no_destroy (w : LaunchWorld) (a : RunArgs)
    (hnd : ¬ (a.dev = true ∧ 1 < a.count)) (henv : w.dotEnvExists = true)
    (hdr : a.dryRun = false) :
    (∀ n, Event.runtimeRemove n ∉ (launchContainers w a).events) ∧
    ∃ l, (launchContainers w a).result = Except.ok l ∧
      l.map (fun e => (e.name, e.backend_port))
        = ((plannedConfigs w a).filter w.launchOK).map
            (fun c => (c.name, c.backend_port)) ∧
      (∀ e ∈ l, e.ready = false →
        Msg.warnNotReady e.name ∈ (launchContainers w a).msgs) ∧
      (∀ e ∈ l, Event.waitReady e.name e.backend_port
        ∈ (launchContainers w a).events) := by
  rw [launchContainers_normal w a hnd henv hdr]
  have hentries : (launchPhase w a).1
      = ((plannedConfigs w a).filter w.launchOK).map toLaunchedEntry :=
    launchLoop_entries w.launchOK a.launchInterval
      (plannedConfigs w a).length (plannedConfigs w a) 0
  refine ⟨?_, (readyPhase w a).1, rfl, ?_, ?_, ?_⟩
  · intro n
    simp only [List.mem_append, List.mem_cons, List.mem_singleton,
      List.not_mem_nil, or_false]
    rintro (((h | h) | h) | h)
    · exact Event.noConfusion h
    · exact Event.noConfusion h
    · exact launchLoop_no_remove w.launchOK a.launchInterval
        (plannedConfigs w a).length n (plannedConfigs w a) 0 h
    · unfold readyPhase at h
      by_cases hl : (launchPhase w a).1 = []
      · simp [hl] at h
      · rw [if_neg hl, readinessPhase_events] at h
        rcases List.mem_map.mp h with ⟨e, -, hme⟩
        exact Event.noConfusion hme
  · unfold readyPhase
    by_cases hl : (launchPhase w a).1 = []
    · rw [if_pos hl]
      rw [hentries] at hl
      have hnil : (plannedConfigs w a).filter w.launchOK = [] :=
        List.map_eq_nil_iff.mp hl
      simp [hnil]
    · rw [if_neg hl, readinessPhase_name_port, hentries, List.map_map]
      rfl
  · intro e he hready
    unfold readyPhase at he
    by_cases hl : (launchPhase w a).1 = []
    · simp [hl] at he
    · rw [if_neg hl] at he
      have hw := readinessPhase_warn_of_not_ready w.healthy 0 600
        (launchPhase w a).1 0 e he hready
      have : Msg.warnNotReady e.name ∈ (readyPhase w a).2.2.2 := by
        unfold readyPhase
        rw [if_neg hl]
        exact hw
      simp [this]
  · intro e he
    have hpair : (e.name, e.backend_port)
        ∈ (launchPhase w a).1.map (fun e => (e.name, e.backend_port)) := by
      unfold readyPhase at he
      by_cases hl : (launchPhase w a).1 = []
      · simp [hl] at he
      · rw [if_neg hl] at he
        rw [← readinessPhase_name_port w.healthy 0 600 (launchPhase w a).1 0]
        exact List.mem_map.mpr ⟨e, he, rfl⟩
    have hev : Event.waitReady e.name e.backend_port ∈ (readyPhase w a).2.2.1 := by
      unfold readyPhase
      by_cases hl : (launchPhase w a).1 = []
      · rw [hl] at hpair
        simp at hpair
      · rw [if_neg hl, readinessPhase_events]
        rcases List.mem_map.mp hpair with ⟨e2, he2, hpe⟩
        refine List.mem_map.mpr ⟨e2, he2, ?_⟩
        rw [show e2.name = e.name from congrArg Prod.fst hpe,
          show e2.backend_port = e.backend_port from congrArg Prod.snd hpe]
    simp [hev]

theorem readiness_no_destroy_witness :
    Event.runtimeRemove "mobile_world_0" ∉ (launchContainers testWorld testArgs).events :=
  (readiness_timeout_records_not_ready_no_destroy testWorld testArgs
    (by decide) rfl rfl).1 "mobile_world_0"

/-! ## C7 -/

/-- C7: every planned instance name has the form `pfx_index` in normal
mode or `pfx_index_dev` in dev mode, and within one planning step the
indices are consecutive: the i-th planned descriptor (0-based) receives
index `k + i`, where `k` is the next index `find_next_container_index`
computed from the existing fleet for the requested dev/non-dev sequence. -/
theorem planned_names_follow_prefix_index_pattern (w : LaunchWorld) (a : RunArgs)
    (i : Nat) (h : i < (plannedConfigs w a).length) :
    ((plannedConfigs w a).get ⟨i, h⟩).name
      = a.namePfx ++ "_" ++ toString (w.nextContainerIndex a.namePfx a.dev + i)
        ++ (if a.dev then "_dev" else "") := by
  unfold plannedConfigs buildConfigs at h ⊢
  simp [List.get_eq_getElem, List.getElem_map, List.getElem_enum]

theorem planned_names_witness :
    ((plannedConfigs testWorld testArgs).get ⟨1, by decide⟩).name = "mobile_world_1" :=
  (planned_names_follow_prefix_index_pattern testWorld testArgs 1 (by decide)).trans
    (by decide)

end MobileWorld
